import Mathlib

/-!
Verification of the `prognest` progress library (`src/lib.rs`) against its
natural-language specification.

The library is generic over an absolute-unit type `T`, an internal-unit type
`I` and a progress type `P`; every test and doc example instantiates them with
unsigned machine integers, and the spec treats the numeric domain as a
parameter ("arithmetic overflow behaviour is inherited from the type").  We
embed the homogeneous unbounded instantiation `T = I = P = Nat`: at this
instantiation the `TryInto` coercions in `advance` are the identity and always
succeed, while Rust's integer division and remainder by zero panic, which we
model by returning `none`.

The shared `tokio::sync::watch` channel is represented by an explicit
`Channel` state threaded through the operations; a `Progress` node stores
only an identifier of the writer it holds (`sender`), mirroring the cloned
`Sender<T>` handle of the source.
-/

namespace Prognest

/-- The state of the shared watch channel: the current absolute value
(initialised to `Default::default()`, i.e. `0`, by `Progress::new`) and a
generation counter bumped by every `send_modify`, which is what lets a
receiver detect "changed since I last looked". -/
structure Channel where
  value : Nat
  generation : Nat
  deriving DecidableEq

/-- A progress node, from `struct Progress<T, I>` in `src/lib.rs`.
`sender` is an identifier standing for the cloned `Sender<T>` handle; the
remaining fields are `allocation`, `internal` (the internal max) and
`unaccounted` exactly as in the source, at `T = I = Nat`. -/
structure Progress where
  sender : Nat
  allocation : Nat
  internal : Nat
  unaccounted : Nat
  deriving DecidableEq

/-- Modelled from the spec: the read side of the Shared Total Channel
(`tokio::sync::watch::Receiver`, a dependency whose code is not under
`src/`).  Per spec section 4.1 a reader "starts with unseen state set so the
first read always reports the current value as changed"; `seen` is the
generation last marked seen, `none` when nothing has been seen yet. -/
structure Reader where
  seen : Option Nat
  deriving DecidableEq

/-- `Progress::with_internal`: build a node from a sender handle, an
allocation and an internal max; `unaccounted` is `Default::default()`. -/
def Progress.with_internal (sender allocation internal : Nat) : Progress :=
  { sender := sender, allocation := allocation, internal := internal,
    unaccounted := 0 }

/-- `Progress::new`: creates a fresh watch channel holding
`Default::default()` (= 0) and the root node via `with_internal` with
defaulted internal max.  The fresh channel is returned alongside the node so
the embedding can thread it explicitly; `0` identifies its write side. -/
def Progress.new (allocation : Nat) : Progress × Channel :=
  (Progress.with_internal 0 allocation 0, { value := 0, generation := 0 })

/-- `Progress::subscribe`: `self.sender.subscribe()`.  Modelled from the
spec (section 4.1): the new reader starts unseen. -/
def Progress.subscribe (_self : Progress) : Reader :=
  { seen := none }

/-- `Progress::allocation` accessor. -/
def Progress.allocation_of (self : Progress) : Nat :=
  self.allocation

/-- `Progress::set_internal`: overwrites the internal max field. -/
def Progress.set_internal (self : Progress) (internal : Nat) : Progress :=
  { self with internal := internal }

/-- `Progress::allocate`: a new node with the same (cloned) sender, the given
allocation, and defaulted internal max / unaccounted. -/
def Progress.allocate (self : Progress) (allocation : Nat) : Progress :=
  Progress.with_internal self.sender allocation 0

/-- `Progress::allocate_fraction`: divides the node's allocation by the given
fraction with `T`'s division operator and then behaves as `allocate`.  Rust
integer division panics on a zero divisor, modelled by `none`. -/
def Progress.allocate_fraction (self : Progress) (fraction : Nat) :
    Option Progress :=
  if fraction = 0 then none
  else some (Progress.with_internal self.sender (self.allocation / fraction) 0)

/-- `Progress::advance_raw`: `self.sender.send_modify(|s| s.add_assign(p))`.
Adds the delta into the shared value and bumps the generation (the
`send_modify` notification). -/
def Progress.advance_raw (_self : Progress) (ch : Channel) (progress : Nat) :
    Channel :=
  { value := ch.value + progress, generation := ch.generation + 1 }

/-- `Progress::advance_mul`: `intermediate = (progress + unaccounted) *
allocation`, then divide and take the remainder by the internal max, store the
remainder and push the quotient via `advance_raw`.  The coercion in the source
turns the combined progress into the allocation's type; at `T = I = Nat` it is
the identity.  Division or remainder by a zero internal max panics in Rust,
modelled by `none`. -/
def Progress.advance_mul (self : Progress) (ch : Channel) (progress : Nat) :
    Option (Progress × Channel) :=
  let intermediate := (progress + self.unaccounted) * self.allocation
  if self.internal = 0 then none
  else
    let prog := intermediate / self.internal
    let unacc := intermediate % self.internal
    some ({ self with unaccounted := unacc }, self.advance_raw ch prog)

/-- `Progress::advance`: identical computation to `advance_mul`, except that
the source coerces the allocation into the internal-unit type before the
multiply (`self.allocation.clone().try_into().ok().unwrap()`) and the
quotient back into `T` afterwards; at `T = I = Nat` both `TryInto` coercions
are the identity and infallible.  Division or remainder by a zero internal
max panics in Rust, modelled by `none`. -/
def Progress.advance (self : Progress) (ch : Channel) (progress : Nat) :
    Option (Progress × Channel) :=
  let alloc_in_internal_units : Nat := self.allocation
  let intermediate := (progress + self.unaccounted) * alloc_in_internal_units
  if self.internal = 0 then none
  else
    let prog : Nat := intermediate / self.internal
    let unacc := intermediate % self.internal
    some ({ self with unaccounted := unacc }, self.advance_raw ch prog)

/-- Spec section 4.1 `read_and_mark_seen`, i.e. `Receiver::borrow_and_update`
together with the changed flag: returns the current value, whether it is
unseen, and the reader with the current generation marked seen.  Modelled
from the spec, as the receiver implementation is not under `src/`. -/
def Reader.borrow_and_update (r : Reader) (ch : Channel) :
    Nat × Bool × Reader :=
  (ch.value, decide (r.seen ≠ some ch.generation), { seen := some ch.generation })

/-- Run a sequence of `advance_raw` calls, threading the channel. -/
def runRaw (self : Progress) : Channel → List Nat → Channel
  | ch, [] => ch
  | ch, d :: ds => runRaw self (self.advance_raw ch d) ds

/-- Run a sequence of `advance` calls, threading node and channel; `none` as
soon as one call panics. -/
def runAdvance : Progress → Channel → List Nat → Option (Progress × Channel)
  | n, ch, [] => some (n, ch)
  | n, ch, p :: ps =>
    match n.advance ch p with
    | none => none
    | some (n', ch') => runAdvance n' ch' ps

theorem runRaw_value (self : Progress) :
    ∀ (ds : List Nat) (ch : Channel), (runRaw self ch ds).value = ch.value + ds.sum
  | [], ch => by simp [runRaw]
  | d :: ds, ch => by
    rw [runRaw, runRaw_value self ds]
    simp [Progress.advance_raw]
    omega

/-- C1: a node with allocation `A`, internal max `M` and identity
`unaccounted`, advanced once by `p`, pushes exactly `⌊p * A / M⌋` into the
shared total (a subscriber then reads the previous total plus that delta) and
retains `(p * A) % M` in `unaccounted`. -/
theorem c1_single_advance (sn A M p v g : Nat) (hM : M ≠ 0) :
    Progress.advance ⟨sn, A, M, 0⟩ ⟨v, g⟩ p =
      some (⟨sn, A, M, (p * A) % M⟩, ⟨v + p * A / M, g + 1⟩) := by
  simp [Progress.advance, Progress.advance_raw, hM]

/-- C1 witness: the spec's concrete scenario.  Root allocation 10000, child
allocated 8000 with internal max 10000, advancing by 5000 internal units
yields an observed total of 4000 and no remainder. -/
theorem c1_single_advance_witness :
    (10000 : Nat) ≠ 0 ∧
      Progress.advance
          (((Progress.new 10000).1.allocate 8000).set_internal 10000)
          (Progress.new 10000).2 5000 =
        some (⟨0, 8000, 10000, 0⟩, ⟨4000, 1⟩) :=
  ⟨by decide, (c1_single_advance 0 8000 10000 5000 0 0 (by decide)).trans (by decide)⟩

/-- C2 (violated by the code): remainder conservation fails.  From a fresh
node with allocation 8000 and internal max 10000, `advance(1)` followed by
`advance(1)` pushes a total delta of 6400 and leaves `unaccounted = 8000`,
while the single non-truncating computation over the cumulative progress,
`(1 + 1) * 8000 / 10000`, truncates to 1 (exactly 1.6): the carried remainder
is re-multiplied by the allocation on the next call, so the rounding error
compounds far beyond one absolute unit. -/
theorem c2_remainder_not_conserved :
    runAdvance ⟨0, 8000, 10000, 0⟩ ⟨0, 0⟩ [1, 1] =
      some (⟨0, 8000, 10000, 8000⟩, ⟨6400, 2⟩) ∧
    (1 + 1) * 8000 / 10000 = 1 ∧ 6400 > (1 + 1) * 8000 / 10000 + 1 := by
  refine ⟨by decide, by decide, by decide⟩

/-- C3 counterexample: `advance` is not total.  On a fresh root whose
internal max is still the default 0, the source's
`intermediate.div(self.internal)` divides by zero and panics for the integer
instantiation, so the call fails instead of pushing a delta. -/
theorem c3_advance_not_total :
    Progress.advance (Progress.new 10000).1 (Progress.new 10000).2 5 = none := by
  decide

/-- C3 amended: on every node whose internal max is nonzero — so the
division inherited from the numeric type cannot trap — `advance` completes
and pushes a delta into the shared total. -/
theorem c3_advance_total_when_internal_nonzero (n : Progress) (ch : Channel)
    (p : Nat) (h : n.internal ≠ 0) :
    ∃ n' ch', n.advance ch p = some (n', ch') ∧
      ch'.value = ch.value + (p + n.unaccounted) * n.allocation / n.internal := by
  refine ⟨{ n with unaccounted := (p + n.unaccounted) * n.allocation % n.internal },
    { value := ch.value + (p + n.unaccounted) * n.allocation / n.internal,
      generation := ch.generation + 1 }, ?_, rfl⟩
  simp [Progress.advance, Progress.advance_raw, h]

/-- C3 witness: a node with internal max 10000 advanced by 2500 completes. -/
theorem c3_advance_total_witness :
    (10000 : Nat) ≠ 0 ∧
    ∃ n' ch', Progress.advance ⟨0, 5000, 10000, 0⟩ ⟨0, 0⟩ 2500 = some (n', ch') ∧
      ch'.value = 0 + (2500 + 0) * 5000 / 10000 :=
  ⟨by decide,
   c3_advance_total_when_internal_nonzero ⟨0, 5000, 10000, 0⟩ ⟨0, 0⟩ 2500 (by decide)⟩

/-- C4: at the homogeneous instantiation (where both source variants
compile), `advance` and `advance_mul` compute the identical five-step
conversion — same pushed delta, same retained `unaccounted` — differing only
in which operand the source coerces first, which here is the identity. -/
theorem c4_advance_eq_advance_mul (n : Progress) (ch : Channel) (p : Nat) :
    n.advance ch p = n.advance_mul ch p := rfl

/-- C5: raw accumulation.  On a freshly created root (channel value 0), any
sequence of `advance_raw` calls leaves the observed total equal to the sum of
the deltas, and any permutation of the sequence yields the same total. -/
theorem c5_raw_accumulation (A : Nat) (ds ds' : List Nat) (hperm : ds.Perm ds') :
    (runRaw (Progress.new A).1 (Progress.new A).2 ds).value = ds.sum ∧
    (runRaw (Progress.new A).1 (Progress.new A).2 ds').value =
      (runRaw (Progress.new A).1 (Progress.new A).2 ds).value := by
  constructor
  · rw [runRaw_value]
    simp [Progress.new]
  · rw [runRaw_value, runRaw_value, hperm.sum_eq]

/-- C5 witness: the library's own first test — deltas 100 then 200 observed
as 300, and the swapped order gives the same total. -/
theorem c5_raw_accumulation_witness :
    ([100, 200] : List Nat).Perm [200, 100] ∧
    (runRaw (Progress.new 10000).1 (Progress.new 10000).2 [100, 200]).value = 300 ∧
    (runRaw (Progress.new 10000).1 (Progress.new 10000).2 [200, 100]).value =
      (runRaw (Progress.new 10000).1 (Progress.new 10000).2 [100, 200]).value :=
  ⟨List.Perm.swap 200 100 [],
   ((c5_raw_accumulation 10000 [100, 200] [200, 100] (List.Perm.swap 200 100 [])).1).trans
     (by decide),
   (c5_raw_accumulation 10000 [100, 200] [200, 100] (List.Perm.swap 200 100 [])).2⟩

/-- C6 counterexample: the claim's "never fails for every node and every
input" is too strong.  On a node whose internal max is the default 0, any
positive progress already exceeds the internal max, and `advance` fails
(Rust division by zero) rather than completing. -/
theorem c6_overshoot_counterexample :
    (3 : Nat) > 0 ∧ Progress.advance ⟨0, 5000, 0, 0⟩ ⟨0, 0⟩ 3 = none := by
  decide

/-- C6 amended: whenever the internal max is nonzero, `advance` never fails
and never clamps — the pushed delta follows the conversion formula
unconditionally, even when progress exceeds the internal max or allocations
are oversubscribed, so the shared total may grow past the nominal root
allocation; no operation detects or prevents this. -/
theorem c6_no_clamp (n : Progress) (ch : Channel) (p : Nat) (h : n.internal ≠ 0) :
    n.advance ch p =
      some ({ n with unaccounted := (p + n.unaccounted) * n.allocation % n.internal },
        { value := ch.value + (p + n.unaccounted) * n.allocation / n.internal,
          generation := ch.generation + 1 }) := by
  simp [Progress.advance, Progress.advance_raw, h]

/-- C6 witness: the library's own overshoot test — a node allocated 2500
with internal max 100, advanced a second time by a full 100 from a total of
10000, drives the shared total to 12500, past the nominal root allocation of
10000. -/
theorem c6_no_clamp_witness :
    (100 : Nat) ≠ 0 ∧
    Progress.advance ⟨0, 2500, 100, 0⟩ ⟨10000, 3⟩ 100 =
      some (⟨0, 2500, 100, 0⟩, ⟨12500, 4⟩) ∧ (12500 : Nat) > 10000 :=
  ⟨by decide,
   (c6_no_clamp ⟨0, 2500, 100, 0⟩ ⟨10000, 3⟩ 100 (by decide)).trans (by decide),
   by decide⟩

/-- C7: `allocate_fraction` with a nonzero divisor returns a new node whose
allocation is the parent allocation divided (with `T`'s truncating division)
by the divisor, sharing the parent's channel writer, with internal max and
unaccounted at their defaults; the parent (taken by shared reference) is
unchanged. -/
theorem c7_allocate_fraction (n : Progress) (f : Nat) (hf : f ≠ 0) :
    n.allocate_fraction f = some ⟨n.sender, n.allocation / f, 0, 0⟩ := by
  simp [Progress.allocate_fraction, Progress.with_internal, hf]

/-- C7 witness: halving a node allocated 5000 yields a child allocated 2500
with defaulted internal max and unaccounted, on the same sender. -/
theorem c7_allocate_fraction_witness :
    (2 : Nat) ≠ 0 ∧
    Progress.allocate_fraction ⟨0, 5000, 10000, 0⟩ 2 = some ⟨0, 2500, 0, 0⟩ :=
  ⟨by decide, (c7_allocate_fraction ⟨0, 5000, 10000, 0⟩ 2 (by decide)).trans (by decide)⟩

/-- C8 (reader semantics, channel modelled from the spec): a reader
subscribed before any update reads the initial value with the changed flag
true; immediately re-reading reports unchanged; one further delta makes it
changed again; and two deltas between two reads coalesce into exactly one
observed change carrying the cumulative value — the read after it reports
unchanged. -/
theorem c8_reader_semantics (n : Progress) (ch : Channel) (d1 d2 : Nat) :
    (n.subscribe.borrow_and_update ch).1 = ch.value ∧
    (n.subscribe.borrow_and_update ch).2.1 = true ∧
    ((n.subscribe.borrow_and_update ch).2.2.borrow_and_update ch).2.1 = false ∧
    ((n.subscribe.borrow_and_update ch).2.2.borrow_and_update
        (n.advance_raw ch d1)).2.1 = true ∧
    ((n.subscribe.borrow_and_update ch).2.2.borrow_and_update
        (n.advance_raw (n.advance_raw ch d1) d2)).1 = ch.value + d1 + d2 ∧
    ((n.subscribe.borrow_and_update ch).2.2.borrow_and_update
        (n.advance_raw (n.advance_raw ch d1) d2)).2.1 = true ∧
    (((n.subscribe.borrow_and_update ch).2.2.borrow_and_update
        (n.advance_raw (n.advance_raw ch d1) d2)).2.2.borrow_and_update
        (n.advance_raw (n.advance_raw ch d1) d2)).2.1 = false := by
  simp [Progress.subscribe, Reader.borrow_and_update, Progress.advance_raw]
  omega

/-- C9: the allocation field is fixed at construction.  `set_internal`
leaves it unchanged, and whenever `advance` or `advance_mul` completes, the
updated node keeps its allocation (nodes are distinct values, so operations
on one node touch no other node's fields). -/
theorem c9_allocation_immutable (n : Progress) (ch : Channel) (i p : Nat) :
    (n.set_internal i).allocation = n.allocation ∧
    (∀ n' ch', n.advance ch p = some (n', ch') → n'.allocation = n.allocation) ∧
    (∀ n' ch', n.advance_mul ch p = some (n', ch') → n'.allocation = n.allocation) := by
  refine ⟨rfl, fun n' ch' h => ?_, fun n' ch' h => ?_⟩ <;>
  · by_cases hi : n.internal = 0
    · simp [Progress.advance, Progress.advance_mul, hi] at h
    · simp [Progress.advance, Progress.advance_mul, hi] at h
      rw [← h.1]

/-- C9 witness: concrete instance — `set_internal` and a completed `advance`
both preserve the allocation 8000. -/
theorem c9_allocation_immutable_witness :
    ((⟨0, 8000, 10000, 0⟩ : Progress).set_internal 500).allocation =
      (⟨0, 8000, 10000, 0⟩ : Progress).allocation ∧
    (⟨0, 8000, 10000, 0⟩ : Progress).allocation =
      (⟨0, 8000, 10000, 0⟩ : Progress).allocation :=
  ⟨(c9_allocation_immutable ⟨0, 8000, 10000, 0⟩ ⟨0, 0⟩ 500 5000).1,
   (c9_allocation_immutable ⟨0, 8000, 10000, 0⟩ ⟨0, 0⟩ 500 5000).2.1
     ⟨0, 8000, 10000, 0⟩ ⟨4000, 1⟩ (by decide)⟩

/-- C10: `set_internal` overwrites only the internal max — allocation,
unaccounted and the sender handle are untouched — so a remainder accumulated
under the previous scale is carried into the next `advance`, which folds it
under the new scale `i` instead of resetting it. -/
theorem c10_set_internal_frame (n : Progress) (i : Nat) (ch : Channel) (p : Nat)
    (hi : i ≠ 0) :
    (n.set_internal i).internal = i ∧
    (n.set_internal i).allocation = n.allocation ∧
    (n.set_internal i).unaccounted = n.unaccounted ∧
    (n.set_internal i).sender = n.sender ∧
    (n.set_internal i).advance ch p =
      some ({ n with internal := i,
                     unaccounted := (p + n.unaccounted) * n.allocation % i },
        { value := ch.value + (p + n.unaccounted) * n.allocation / i,
          generation := ch.generation + 1 }) := by
  refine ⟨rfl, rfl, rfl, rfl, ?_⟩
  simp [Progress.set_internal, Progress.advance, Progress.advance_raw, hi]

/-- C10 witness: a node carrying remainder 400 under internal max 10000 is
rescaled to internal max 300; the next `advance 7` folds the carried 400
under the new scale: `(7 + 400) * 8000 / 300 = 10853`, remainder 100. -/
theorem c10_set_internal_frame_witness :
    (300 : Nat) ≠ 0 ∧
    ((⟨0, 8000, 10000, 400⟩ : Progress).set_internal 300).advance ⟨0, 0⟩ 7 =
      some (⟨0, 8000, 300, 100⟩, ⟨10853, 1⟩) :=
  ⟨by decide,
   ((c10_set_internal_frame ⟨0, 8000, 10000, 400⟩ 300 ⟨0, 0⟩ 7 (by decide)).2.2.2.2).trans
     (by decide)⟩

end Prognest
